import Mathlib

/-!
Shallow embedding of the Good4It backend's money-transaction lifecycle and
task/EMI-forgiveness engine (routes/money.js and routes/tasks.js route
handlers, models/MoneyTransaction.js and models/Task.js).

Modelling conventions:
* User and document ids are `Nat`.
* Monetary amounts are `Int` (the handlers do exact additions and
  comparisons; no fractional arithmetic is relevant to any claim).
* Mongo documents with possibly-absent numeric fields (`repaymentAmount`,
  `forgivenAmount`) are `Option Int`; the JS idiom `x || 0` becomes
  `Option.getD · 0`.
* Month keys "YYYY-MM" are absolute month indices (`year * 12 + month0`):
  zero-padded month-key strings compare lexicographically exactly as their
  indices compare, and JS `setMonth` rollover is index addition.
* Timestamps are `Nat` at the granularity the claims need; `Date.now` is a
  `now` parameter threaded through each handler.
* Each Express handler becomes a pure function returning
  `Except HandlerError result`; database lookups become parameters
  (`Option` for `findById`, `List` for collection queries).
* `save()` runs the Mongoose schema validators; the validators on the
  fields these handlers write (`repaymentAmount`'s min-0 bound, the Task
  `monetaryValue` required/min/max/custom validators) are modelled, with a
  ValidationError mapping to `HandlerError.serverError` (the catch blocks
  respond 500 and nothing is persisted).
-/

namespace Good4It

/-- MoneyTransaction `status` enum (models/MoneyTransaction.js). -/
inductive TxStatus where
  | money_sent
  | money_received
  | repayment_sent
  | repaid
  | forgiven
  | repayment_rejected
deriving DecidableEq, Repr

/-- Task `status` enum (models/Task.js). -/
inductive TaskStatus where
  | pending
  | accepted
  | in_progress
  | completed
  | confirmed
  | declined
  | cancelled
deriving DecidableEq, Repr

/-- MoneyRequest `paymentType` enum (models/MoneyRequest.js). -/
inductive PaymentType where
  | full_payment
  | emi
  | installments
  | flexible
deriving DecidableEq, Repr

/-- EMI `frequency` enum (models/MoneyRequest.js emiDetails.frequency). -/
inductive Frequency where
  | weekly
  | monthly
  | quarterly
deriving DecidableEq, Repr

/-- One entry of `emiForgiveness.forgivenEMIs` on a MoneyTransaction. -/
structure EmiEntry where
  month : Nat
  amount : Int
  forgivenAt : Nat
  taskId : Nat
deriving DecidableEq, Repr

/-- MoneyTransaction document: the fields the route handlers read or write. -/
structure MoneyTransaction where
  id : Nat
  requestId : Nat
  requestor : Nat
  lender : Nat
  amount : Int
  status : TxStatus
  repaymentAmount : Option Int
  repaymentSentAt : Option Nat
  repaymentReceivedAt : Option Nat
  forgivenAt : Option Nat
  forgivenAmount : Option Int
  emiForgivenEMIs : List EmiEntry
  totalForgivenEMIs : Nat
  hasRepaymentSentProof : Bool
  hasRepaymentReceivedProof : Bool
  createdAtMonth : Nat
deriving DecidableEq, Repr

/-- `emiDetails` sub-document of a MoneyRequest. -/
structure EmiDetails where
  numberOfInstallments : Nat
  installmentAmount : Option Int
  frequency : Frequency
deriving DecidableEq, Repr

/-- MoneyRequest document: the fields the task/EMI handlers read. -/
structure MoneyRequestRec where
  id : Nat
  paymentType : PaymentType
  emiDetails : Option EmiDetails
deriving DecidableEq, Repr

/-- `emiForgiveness` sub-document of a Task. -/
structure TaskEmiForgiveness where
  forgivenEMIs : Nat
  startMonth : Nat
  endMonth : Nat
deriving DecidableEq, Repr

/-- Task document: the fields the route handlers read or write. -/
structure Task where
  id : Nat
  assignedBy : Nat
  assignedTo : Nat
  referenceTransaction : Nat
  monetaryValue : Int
  status : TaskStatus
  isEmiTask : Bool
  emiForgiveness : Option TaskEmiForgiveness
  amountRepaid : Int
  confirmedAt : Option Nat
deriving DecidableEq, Repr

/-- The JS idiom `transaction.repaymentAmount || 0`. -/
def orZero (o : Option Int) : Int := o.getD 0

/-- JS truthiness test `!amount` for a numeric request-body field:
falsy when the field is absent or equals 0. -/
def jsMissing (o : Option Int) : Bool := o = none ∨ o = some 0

/-- Error responses a handler can produce, tagged by HTTP status kind;
`serverError` covers a Mongoose ValidationError thrown by `save()` and
caught by the handler's catch block (500, nothing persisted). -/
inductive HandlerError where
  | badRequest (msg : String)
  | notFound (msg : String)
  | forbidden (msg : String)
  | serverError (msg : String)
deriving DecidableEq, Repr

/-! ## POST /api/money/repay (routes/money.js)

The handler: requires `transactionId` and `amount` in the body; resolves the
transaction; only the requestor may repay; only from status `money_received`;
optionally records a proof; then accumulates or overwrites `repaymentAmount`
and moves to `repayment_sent`. -/

/-- POST /api/money/repay. `txLookup` is the `findById` result; `amount` is
the body field (absent = `none`); `hasProof` is whether a file was attached
(`req.file`). The handler neither requires a proof nor tests the sign of
`amount`; however `transaction.save()` runs the schema validators, and
moneyTransactionSchema's `min: [0, ...]` on `repaymentAmount` rejects a
negative accumulated total — the handler's catch block then responds 500
and nothing is persisted. -/
def repay (now userId : Nat) (transactionId : Option Nat) (amount : Option Int)
    (hasProof : Bool) (txLookup : Option MoneyTransaction) :
    Except HandlerError MoneyTransaction :=
  if transactionId = none ∨ jsMissing amount then
    .error (.badRequest "Transaction ID and amount are required")
  else
    match txLookup with
    | none => .error (.notFound "Transaction not found")
    | some t =>
      if t.requestor ≠ userId then
        .error (.forbidden "Only the borrower can send repayment")
      else if t.status ≠ .money_received then
        .error (.badRequest "Can only repay after money has been received")
      else
        let t1 := if hasProof then { t with hasRepaymentSentProof := true } else t
        let previousStatus := t.status
        let previousRepaymentAmount := orZero t.repaymentAmount
        let submitted := amount.getD 0
        let newRepayment :=
          if previousStatus = .money_received ∧ previousRepaymentAmount > 0 then
            previousRepaymentAmount + submitted
          else
            submitted
        if newRepayment < 0 then
          .error (.serverError "Failed to send repayment")
        else
          .ok { t1 with
                  repaymentAmount := some newRepayment,
                  status := .repayment_sent,
                  repaymentSentAt := some now }

/-! ## POST /api/money/confirm-repayment (routes/money.js) -/

/-- POST /api/money/confirm-repayment. Lender only, from `repayment_sent`
only; sets `repaid` when the accumulated `repaymentAmount` covers `amount`,
otherwise loops back to `money_received`. -/
def confirmRepayment (now userId : Nat) (transactionId : Option Nat)
    (hasProof : Bool) (txLookup : Option MoneyTransaction) :
    Except HandlerError MoneyTransaction :=
  if transactionId = none then
    .error (.badRequest "Transaction ID is required")
  else
    match txLookup with
    | none => .error (.notFound "Transaction not found")
    | some t =>
      if t.lender ≠ userId then
        .error (.forbidden "Only the lender can confirm repayment")
      else if t.status ≠ .repayment_sent then
        .error (.badRequest "Repayment must be sent first before confirming")
      else
        let t1 := if hasProof then { t with hasRepaymentReceivedProof := true } else t
        let t2 := { t1 with repaymentReceivedAt := some now }
        let totalRepaid := orZero t2.repaymentAmount
        let isFullyRepaid := totalRepaid ≥ t2.amount
        .ok { t2 with
                status := if isFullyRepaid then .repaid else .money_received }

/-! ## POST /api/money/forgive (routes/money.js)

Note: the handler checks only that the caller is the lender and that
`amount - (repaymentAmount || 0) > 0`; it never inspects `status`. -/

/-- POST /api/money/forgive. -/
def forgive (now userId : Nat) (transactionId : Option Nat)
    (txLookup : Option MoneyTransaction) : Except HandlerError MoneyTransaction :=
  if transactionId = none then
    .error (.badRequest "Transaction ID is required")
  else
    match txLookup with
    | none => .error (.notFound "Transaction not found")
    | some t =>
      if t.lender ≠ userId then
        .error (.forbidden "Only the lender can forgive debt")
      else
        let remainingAmount := t.amount - orZero t.repaymentAmount
        if remainingAmount ≤ 0 then
          .error (.badRequest "No remaining debt to forgive")
        else
          .ok { t with
                  status := .forgiven,
                  forgivenAt := some now,
                  forgivenAmount := some remainingAmount }

/-- The `remainingBalance` virtual of moneyTransactionSchema
(models/MoneyTransaction.js): 0 when `repaid`, else
`amount - (repaymentAmount || 0)`. -/
def remainingBalance (t : MoneyTransaction) : Int :=
  if t.status = .repaid then 0 else t.amount - orZero t.repaymentAmount

/-! ## POST /api/tasks/create (routes/tasks.js) -/

/-- The maximum-forgivable-EMIs computation inside POST /api/tasks/create:
`maxEMIs = 5` whenever `loanAmount <= 500`; otherwise
`max(min(floor(loanAmount / 100), 24), 1)`. -/
def maxEMIsFor (loanAmount : Int) : Int :=
  if loanAmount ≤ 500 then 5
  else max (min (loanAmount / 100) 24) 1

/-- The duplicate-task query of POST /api/tasks/create:
`Task.findOne({ referenceTransaction, status: { $in: ["pending",
"accepted", "in_progress"] } })` over the task collection. -/
def hasBlockingTask (tasks : List Task) (transactionId : Nat) : Bool :=
  tasks.any fun t =>
    t.referenceTransaction = transactionId ∧
      (t.status = .pending ∨ t.status = .accepted ∨ t.status = .in_progress)

/-- The taskSchema validators on `monetaryValue`, run by `task.save()`:
required; `min: 0`; `max: 10000`; custom validator allowing 0 only for EMI
tasks (non-EMI tasks need a value strictly greater than 0). -/
def taskMonetaryValueValid (isEmiTask : Bool) (monetaryValue : Option Int) :
    Bool :=
  match monetaryValue with
  | none => false
  | some v => 0 ≤ v ∧ v ≤ 10000 ∧ (if isEmiTask then 0 ≤ v else 0 < v)

/-- Request body of POST /api/tasks/create (the fields the handler reads).
`monetaryValue` and the `emiForgiveness` payload are absent-able;
`hasTitle`/`hasDueDate` stand for the required string fields. -/
structure CreateTaskBody where
  assignedToId : Option Nat
  transactionId : Option Nat
  hasTitle : Bool
  hasDueDate : Bool
  monetaryValue : Option Int
  isEmiTask : Bool
  emiForgivenEMIs : Option Int
deriving Repr

/-- POST /api/tasks/create. `txLookup` is the `findById` of the
referenced transaction (paired with its populated request for the EMI-type
check), `areFriends` the friendship query, `tasks` the task collection for
the duplicate query, `nextId` the id Mongo assigns to the new document.
`task.save()` runs the taskSchema validators; if the `monetaryValue`
validators fail, the catch block responds 500 and no task is created. -/
def createTask (assignedById nextId : Nat) (body : CreateTaskBody)
    (txLookup : Option (MoneyTransaction × MoneyRequestRec))
    (areFriends : Bool) (tasks : List Task) : Except HandlerError Task :=
  if body.assignedToId = none ∨ body.transactionId = none ∨
      ¬ body.hasTitle ∨ ¬ body.hasDueDate then
    .error (.badRequest "Required fields: assignedToId, transactionId, title, dueDate")
  else if ¬ body.isEmiTask ∧ jsMissing body.monetaryValue then
    .error (.badRequest "Monetary value is required for non-EMI tasks")
  else
    match txLookup with
    | none => .error (.notFound "Transaction not found")
    | some (transaction, request) =>
      let assignedToId := body.assignedToId.getD 0
      let transactionId := body.transactionId.getD 0
      if transaction.lender ≠ assignedById then
        .error (.forbidden "You can only create tasks for transactions you lent money for")
      else if transaction.requestor ≠ assignedToId then
        .error (.badRequest "Assigned user must be the borrower of this transaction")
      else if ¬ areFriends then
        .error (.forbidden "You can only assign tasks to friends")
      else
        let emiCheck : Except HandlerError (Option TaskEmiForgiveness) :=
          if body.isEmiTask ∧ body.emiForgivenEMIs ≠ none then
            let forgivenEMIs := body.emiForgivenEMIs.getD 0
            if forgivenEMIs < 1 then
              .error (.badRequest "Must specify number of EMIs to forgive (minimum 1)")
            else if request.paymentType ≠ .emi then
              .error (.badRequest "EMI tasks can only be created for EMI transactions")
            else
              let loanAmount := transaction.amount
              let maxEMIs := maxEMIsFor loanAmount
              if forgivenEMIs > maxEMIs then
                .error (.badRequest "Cannot forgive more EMIs than the loan allows")
              else
                let startMonth := transaction.createdAtMonth
                let endMonth := startMonth + (forgivenEMIs.toNat - 1)
                .ok (some ⟨forgivenEMIs.toNat, startMonth, endMonth⟩)
          else
            .ok none
        match emiCheck with
        | .error e => .error e
        | .ok emiPayload =>
          if hasBlockingTask tasks transactionId then
            .error (.badRequest "There is already a pending task for this transaction")
          else if taskMonetaryValueValid body.isEmiTask body.monetaryValue then
            .ok { id := nextId
                  assignedBy := assignedById
                  assignedTo := assignedToId
                  referenceTransaction := transactionId
                  monetaryValue := orZero body.monetaryValue
                  status := .pending
                  isEmiTask := body.isEmiTask
                  emiForgiveness := if body.isEmiTask then emiPayload else none
                  amountRepaid := 0
                  confirmedAt := none }
          else
            .error (.serverError "Failed to create task")

/-! ## taskSchema.methods.calculateEMIForgivenessMonths (models/Task.js) -/

/-- `calculateEMIForgivenessMonths`: `[]` unless the task is an EMI task
with a nonzero `forgivenEMIs`; otherwise the months
`startMonth + i` for `i in [0, forgivenEMIs)`. -/
def Task.calculateEMIForgivenessMonths (task : Task) : List Nat :=
  match task.emiForgiveness with
  | none => []
  | some ef =>
    if ¬ task.isEmiTask ∨ ef.forgivenEMIs = 0 then []
    else (List.range ef.forgivenEMIs).map fun i => ef.startMonth + i

/-! ## PUT /api/tasks/:taskId/confirm (routes/tasks.js)

The handler saves the confirmed task first, then re-fetches the referenced
transaction and — only when that fetch resolves — applies the
forgiveness/monetary credit to it. -/

/-- The `endOfLastForgivenPeriod` computation, at month granularity:
weekly and monthly periods starting at month `m` end within month `m`;
a quarterly period starting at month `m` ends in month `m + 2`. -/
def endOfLastForgivenPeriodMonth : Frequency → Nat → Nat
  | .weekly, m => m
  | .monthly, m => m
  | .quarterly, m => m + 2

/-- The transaction-update section of PUT /api/tasks/:taskId/confirm,
executed when the re-fetched transaction resolves: EMI-forgiveness merge
(entries, counters, `repaymentReceivedAt` advance), then the
`repaymentAmount` credit and the `repaid` check. -/
def applyTaskCredit (now : Nat) (task : Task) (transaction : MoneyTransaction)
    (reqOpt : Option MoneyRequestRec) : MoneyTransaction :=
  let emiDetailsOpt := reqOpt.bind fun r => r.emiDetails
  let step :=
    match task.emiForgiveness, emiDetailsOpt with
    | some ef, some det =>
      if task.isEmiTask then
        let installmentAmount := orZero det.installmentAmount
        let frequency := det.frequency
        let numberOfForgivenEMIs := ef.forgivenEMIs
        let forgivenAmount := installmentAmount * (numberOfForgivenEMIs : Int)
        let forgivenMonths := task.calculateEMIForgivenessMonths
        let entries := forgivenMonths.map fun m =>
          ({ month := m, amount := installmentAmount, forgivenAt := now,
             taskId := task.id } : EmiEntry)
        let tx1 := { transaction with
                       emiForgivenEMIs := transaction.emiForgivenEMIs ++ entries,
                       totalForgivenEMIs :=
                         transaction.totalForgivenEMIs + numberOfForgivenEMIs }
        let tx2 :=
          match forgivenMonths.getLast? with
          | some lastForgivenMonth =>
            let stamp := endOfLastForgivenPeriodMonth frequency lastForgivenMonth
            { tx1 with repaymentReceivedAt := some stamp }
          | none => tx1
        (tx2, forgivenAmount)
      else (transaction, 0)
    | _, _ => (transaction, 0)
  let txA := step.1
  let forgivenAmount := step.2
  let repaymentToAdd :=
    if task.isEmiTask ∧ forgivenAmount > 0 then forgivenAmount
    else task.monetaryValue
  let newRepayment := orZero txA.repaymentAmount + repaymentToAdd
  let txB := { txA with repaymentAmount := some newRepayment }
  let txC :=
    if (reqOpt.map fun r => r.paymentType) = some .emi ∧
        txB.repaymentReceivedAt = none then
      { txB with repaymentReceivedAt := some now }
    else txB
  if newRepayment ≥ txC.amount then
    { txC with status := .repaid, repaymentReceivedAt := some now }
  else txC

/-- PUT /api/tasks/:taskId/confirm. `taskLookup` is the `findById` of the
task; `txLookup` is the later `findById` of `task.referenceTransaction`
together with its populated request. The task's confirmation is saved
before `txLookup` is consulted, so a missing transaction yields a confirmed
task with no transaction update (`none` in the result). -/
def confirmTask (now userId : Nat) (taskLookup : Option Task)
    (txLookup : Option (MoneyTransaction × Option MoneyRequestRec)) :
    Except HandlerError (Task × Option MoneyTransaction) :=
  match taskLookup with
  | none => .error (.notFound "Task not found")
  | some task =>
    if task.assignedBy ≠ userId then
      .error (.forbidden "Only the task creator can confirm completion")
    else if task.status ≠ .completed then
      .error (.badRequest "Task must be completed before it can be confirmed")
    else
      let task1 := { task with
                       status := .confirmed,
                       confirmedAt := some now,
                       amountRepaid := task.monetaryValue }
      match txLookup with
      | none => .ok (task1, none)
      | some (transaction, reqOpt) =>
        .ok (task1, some (applyTaskCredit now task transaction reqOpt))

/-! ## GET /api/tasks/emi-payment-status/:transactionId (routes/tasks.js) -/

/-- Outcome of the EMI-payment-status query; every constructor other than
`paymentRequired` reports that no payment is required (or that the
transaction is not EMI at all). -/
inductive EmiPayStatus where
  | notEmi
  | forgivenByTask (taskId : Nat)
  | alreadyPaidThisMonth
  | transactionCompleted
  | paymentRequired
deriving DecidableEq, Repr

/-- The `paymentRequired` flag of the response (`notEmi` carries no flag in
the JS response; it reports `false` here since no payment is asked for). -/
def EmiPayStatus.isPaymentRequired : EmiPayStatus → Bool
  | .paymentRequired => true
  | _ => false

/-- The `Task.findOne` filter of the forgiveness check:
confirmed EMI task for this transaction whose
`startMonth ≤ currentMonth ≤ endMonth`. -/
def taskForgivesMonth (transactionId currentMonth : Nat) (task : Task) : Bool :=
  decide (task.referenceTransaction = transactionId) &&
  decide (task.status = TaskStatus.confirmed) &&
  task.isEmiTask &&
  match task.emiForgiveness with
  | some ef => decide (ef.startMonth ≤ currentMonth) &&
               decide (currentMonth ≤ ef.endMonth)
  | none => false

/-- The `MoneyTransaction.findOne` filter of the already-paid check:
another repaid transaction of the same request whose
`repaymentReceivedAt` falls in the current month. -/
def coversCurrentMonthPayment (transactionId requestId currentMonth : Nat)
    (o : MoneyTransaction) : Bool :=
  decide (o.id ≠ transactionId) &&
  decide (o.requestId = requestId) &&
  decide (o.status = TxStatus.repaid) &&
  match o.repaymentReceivedAt with
  | some stamp => decide (stamp = currentMonth)
  | none => false

/-- GET /api/tasks/emi-payment-status/:transactionId. `tasks` and
`transactions` stand for the two collections queried; the three
"not required" conditions are evaluated in the order of the handler,
first match winning. -/
def emiPaymentStatus (currentMonth userId : Nat)
    (txLookup : Option (MoneyTransaction × MoneyRequestRec))
    (tasks : List Task) (transactions : List MoneyTransaction) :
    Except HandlerError EmiPayStatus :=
  match txLookup with
  | none => .error (.notFound "Transaction not found")
  | some (transaction, request) =>
    if transaction.requestor ≠ userId then
      .error (.forbidden "You are not authorized to check payment status for this transaction")
    else if request.paymentType ≠ .emi then
      .ok .notEmi
    else
      match tasks.find? (taskForgivesMonth transaction.id currentMonth) with
      | some forgivenByTask => .ok (.forgivenByTask forgivenByTask.id)
      | none =>
        match transactions.find?
            (coversCurrentMonthPayment transaction.id request.id currentMonth) with
        | some _ => .ok .alreadyPaidThisMonth
        | none =>
          if transaction.status = .repaid then .ok .transactionCompleted
          else .ok .paymentRequired

/-! ## Sample documents for concrete evaluations -/

/-- A sample transaction between lender 1 and requestor 2
(`createdAtMonth` 24288 is January 2024, `2024 * 12`). -/
def mkTx (status : TxStatus) (amount : Int) (repaymentAmount : Option Int) :
    MoneyTransaction :=
  { id := 10, requestId := 20, requestor := 2, lender := 1
    amount := amount, status := status, repaymentAmount := repaymentAmount
    repaymentSentAt := none, repaymentReceivedAt := none
    forgivenAt := none, forgivenAmount := none
    emiForgivenEMIs := [], totalForgivenEMIs := 0
    hasRepaymentSentProof := false, hasRepaymentReceivedProof := false
    createdAtMonth := 24288 }

/-- A sample task assigned by lender 1 to borrower 2 against transaction 10. -/
def mkTask (status : TaskStatus) (monetaryValue : Int) (isEmiTask : Bool)
    (emiForgiveness : Option TaskEmiForgiveness) : Task :=
  { id := 30, assignedBy := 1, assignedTo := 2, referenceTransaction := 10
    monetaryValue := monetaryValue, status := status, isEmiTask := isEmiTask
    emiForgiveness := emiForgiveness, amountRepaid := 0, confirmedAt := none }

/-- A sample EMI money request (12 monthly instalments of 50). -/
def emiReq : MoneyRequestRec :=
  { id := 20, paymentType := .emi
    emiDetails := some { numberOfInstallments := 12
                         installmentAmount := some 50
                         frequency := .monthly } }

/-- A sample full-payment money request. -/
def fullReq : MoneyRequestRec :=
  { id := 20, paymentType := .full_payment, emiDetails := none }

/-- A sample create-task body addressed at `mkTx`'s borrower/transaction. -/
def mkBody (isEmiTask : Bool) (monetaryValue : Option Int)
    (forgivenEMIs : Option Int) : CreateTaskBody :=
  { assignedToId := some 2, transactionId := some 10
    hasTitle := true, hasDueDate := true
    monetaryValue := monetaryValue, isEmiTask := isEmiTask
    emiForgivenEMIs := forgivenEMIs }

/-- Modelled from the spec's wording of the EMI cap, for comparison with
the code's `maxEMIsFor`: "min(floor(loanAmount/100), 24) with a floor of 1,
and additionally capped at 5 when loanAmount ≤ 500". -/
def maxEMIsSpecFormula (loanAmount : Int) : Int :=
  let base := max (min (loanAmount / 100) 24) 1
  if loanAmount ≤ 500 then min base 5 else base

end Good4It

namespace Good4It

/-! ## Claims about the money-transaction lifecycle -/

/-- C1: from `repayment_sent`, confirm-repayment by the lender sets the
status to `repaid` when the accumulated `repaymentAmount` reaches `amount`
and back to `money_received` otherwise; any actor other than the lender and
any status other than `repayment_sent` is rejected. -/
theorem confirmRepayment_spec (now userId txId : Nat) (hasProof : Bool)
    (t : MoneyTransaction) :
    (t.lender = userId → t.status = .repayment_sent →
      ∃ t', confirmRepayment now userId (some txId) hasProof (some t) = .ok t' ∧
        t'.status =
          (if orZero t.repaymentAmount ≥ t.amount then TxStatus.repaid
           else TxStatus.money_received)) ∧
    (t.lender ≠ userId →
      ∃ e, confirmRepayment now userId (some txId) hasProof (some t) = .error e) ∧
    (t.status ≠ .repayment_sent →
      ∃ e, confirmRepayment now userId (some txId) hasProof (some t) = .error e) := by
  refine ⟨fun hl hs => ?_, fun hl => ?_, fun hs => ?_⟩
  · cases hasProof <;> simp [confirmRepayment, hl, hs, orZero]
  · simp [confirmRepayment, hl]
  · by_cases hl : t.lender = userId <;> simp [confirmRepayment, hl, hs]

/-- Witness for C1: a partial repayment of 60 against 100 loops back to
`money_received`; a stranger (user 9) and a `money_sent` transaction are
rejected. -/
theorem confirmRepayment_spec_witness :
    (∃ t', confirmRepayment 5 1 (some 10) false
        (some (mkTx .repayment_sent 100 (some 60))) = .ok t' ∧
      t'.status = TxStatus.money_received) ∧
    (∃ e, confirmRepayment 5 9 (some 10) false
        (some (mkTx .repayment_sent 100 (some 60))) = .error e) ∧
    (∃ e, confirmRepayment 5 1 (some 10) false
        (some (mkTx .money_sent 100 none)) = .error e) := by
  refine ⟨?_, ?_, ?_⟩
  · obtain ⟨t', h1, h2⟩ :=
      (confirmRepayment_spec 5 1 10 false (mkTx .repayment_sent 100 (some 60))).1
        rfl rfl
    refine ⟨t', h1, ?_⟩
    rw [h2]
    decide
  · exact (confirmRepayment_spec 5 9 10 false
      (mkTx .repayment_sent 100 (some 60))).2.1 (by decide)
  · exact (confirmRepayment_spec 5 1 10 false
      (mkTx .money_sent 100 none)).2.2 (by decide)

/-- C3: every successful repay left the transaction's prior status at
`money_received`, and the new `repaymentAmount` is the previous amount plus
the submitted amount when the previous amount was positive, and the
submitted amount alone otherwise. -/
theorem repay_accumulation (now userId txId : Nat) (amount : Option Int)
    (hasProof : Bool) (t t' : MoneyTransaction)
    (h : repay now userId (some txId) amount hasProof (some t) = .ok t') :
    t.status = .money_received ∧
    t'.repaymentAmount =
      some (if orZero t.repaymentAmount > 0 then
              orZero t.repaymentAmount + amount.getD 0
            else amount.getD 0) := by
  simp only [repay] at h
  split at h
  · simp at h
  · split at h
    · simp at h
    · split at h
      · simp at h
      · rename_i hstatus
        rw [not_ne_iff] at hstatus
        split at h
        · rename_i hacc
          split at h
          · simp at h
          · injection h with h
            subst h
            refine ⟨hstatus, ?_⟩
            have hp : orZero t.repaymentAmount > 0 := hacc.2
            cases hasProof <;> simp [hstatus, hp]
        · rename_i hacc
          split at h
          · simp at h
          · injection h with h
            subst h
            refine ⟨hstatus, ?_⟩
            have hp : ¬ orZero t.repaymentAmount > 0 := fun hc => hacc ⟨hstatus, hc⟩
            cases hasProof <;> simp [hstatus, hp]

/-- Witness for C3: a second instalment of 40 on top of a confirmed 60
accumulates to 100. -/
theorem repay_accumulation_witness :
    (mkTx TxStatus.money_received 100 (some 60)).status =
      TxStatus.money_received ∧
    (repay 6 2 (some 10) (some 40) true
        (some (mkTx .money_received 100 (some 60)))).map
      (fun t' => t'.repaymentAmount) = .ok (some 100) := by
  have h :
      repay 6 2 (some 10) (some 40) true
          (some (mkTx .money_received 100 (some 60))) =
        .ok { mkTx .money_received 100 (some 60) with
                hasRepaymentSentProof := true
                repaymentAmount := some 100
                status := .repayment_sent
                repaymentSentAt := some 6 } := rfl
  have h2 := repay_accumulation 6 2 10 (some 40) true
    (mkTx .money_received 100 (some 60)) _ h
  exact ⟨h2.1, rfl⟩

/-- C9 counterexample: a repay by the requestor from `money_received` with
a positive amount and no proof file attached succeeds (the proof is
optional); a negative amount also succeeds when the previously confirmed
balance keeps the accumulated total non-negative (60 − 5 = 55). -/
theorem repay_no_proof_cex :
    (repay 5 2 (some 10) (some 40) false
      (some (mkTx .money_received 100 none))).isOk = true ∧
    (repay 5 2 (some 10) (some (-5)) false
      (some (mkTx .money_received 100 (some 60)))).isOk = true := by decide

/-- C9 amended: repay rejects an absent (or JS-falsy zero) amount; the
proof file is optional; the handler never tests the amount's sign — a
negative submission is rejected only when the accumulated total would be
negative, through the schema's min-0 validator at `save()` (500, nothing
persisted). -/
theorem repay_required_fields (now userId txId : Nat) (amount : Option Int)
    (hasProof : Bool) (t : MoneyTransaction) :
    (jsMissing amount = true →
      ∃ e, repay now userId (some txId) amount hasProof (some t) = .error e) ∧
    (t.requestor = userId → t.status = .money_received →
      jsMissing amount = false →
      0 ≤ (if orZero t.repaymentAmount > 0 then
             orZero t.repaymentAmount + amount.getD 0
           else amount.getD 0) →
      ∃ t', repay now userId (some txId) amount hasProof (some t) = .ok t') ∧
    (t.requestor = userId → t.status = .money_received →
      jsMissing amount = false →
      (if orZero t.repaymentAmount > 0 then
         orZero t.repaymentAmount + amount.getD 0
       else amount.getD 0) < 0 →
      ∃ e, repay now userId (some txId) amount hasProof (some t) = .error e) := by
  refine ⟨fun hm => ?_, fun hr hs hm hnn => ?_, fun hr hs hm hneg => ?_⟩
  · simp [repay, hm]
  · by_cases hp : orZero t.repaymentAmount > 0
    · have hv : ¬ (orZero t.repaymentAmount + amount.getD 0 < 0) := by
        rw [if_pos hp] at hnn
        omega
      cases hasProof <;> simp [repay, hm, hr, hs, hp, hv]
    · have hv : ¬ (amount.getD 0 < 0) := by
        rw [if_neg hp] at hnn
        omega
      cases hasProof <;> simp [repay, hm, hr, hs, hp, hv]
  · by_cases hp : orZero t.repaymentAmount > 0
    · have hv : orZero t.repaymentAmount + amount.getD 0 < 0 := by
        rw [if_pos hp] at hneg
        exact hneg
      cases hasProof <;> simp [repay, hm, hr, hs, hp, hv]
    · have hv : amount.getD 0 < 0 := by
        rw [if_neg hp] at hneg
        exact hneg
      cases hasProof <;> simp [repay, hm, hr, hs, hp, hv]

/-- Witness for the amended C9: a 0 amount is rejected; a positive amount
with no proof succeeds; a lone negative amount is rejected by the min-0
validator at save. -/
theorem repay_required_fields_witness :
    (∃ e, repay 5 2 (some 10) (some 0) true
        (some (mkTx .money_received 100 none)) = .error e) ∧
    (∃ t', repay 5 2 (some 10) (some 40) false
        (some (mkTx .money_received 100 none)) = .ok t') ∧
    (∃ e, repay 5 2 (some 10) (some (-70)) false
        (some (mkTx .money_received 100 none)) = .error e) := by
  refine ⟨?_, ?_, ?_⟩
  · exact (repay_required_fields 5 2 10 (some 0) true
      (mkTx .money_received 100 none)).1 (by decide)
  · exact (repay_required_fields 5 2 10 (some 40) false
      (mkTx .money_received 100 none)).2.1 rfl rfl (by decide) (by decide)
  · exact (repay_required_fields 5 2 10 (some (-70)) false
      (mkTx .money_received 100 none)).2.2 rfl rfl (by decide) (by decide)

/-- C4 counterexample: the lender can forgive a transaction still in
`money_sent`; the handler never inspects the status. -/
theorem forgive_no_status_guard_cex :
    (forgive 5 1 (some 10) (some (mkTx .money_sent 100 none))).isOk = true := by
  decide

/-- C4 amended: forgive succeeds exactly when the actor is the lender and
the remaining balance `amount − repaymentAmount` is positive — in any
status whatsoever (including `money_sent` and `repayment_sent`); only a
non-lender actor or a non-positive remaining balance is rejected. -/
theorem forgive_guard (now userId txId : Nat) (t : MoneyTransaction) :
    (t.lender = userId → t.amount - orZero t.repaymentAmount > 0 →
      forgive now userId (some txId) (some t) =
        .ok { t with
                status := .forgiven
                forgivenAt := some now
                forgivenAmount := some (t.amount - orZero t.repaymentAmount) }) ∧
    (t.lender ≠ userId →
      ∃ e, forgive now userId (some txId) (some t) = .error e) ∧
    (t.amount - orZero t.repaymentAmount ≤ 0 →
      ∃ e, forgive now userId (some txId) (some t) = .error e) := by
  refine ⟨fun hl hr => ?_, fun hl => ?_, fun hr => ?_⟩
  · simp only [forgive]
    rw [if_neg (by simp), if_neg (by simp [hl]), if_neg (by omega)]
  · simp [forgive, hl]
  · by_cases hl : t.lender = userId <;> simp [forgive, hl, hr]

/-- Witness for the amended C4: forgiveness out of `money_sent` succeeds;
a stranger and an already-covered balance are rejected. -/
theorem forgive_guard_witness :
    (forgive 5 1 (some 10) (some (mkTx .money_sent 100 none)) =
      .ok { mkTx .money_sent 100 none with
              status := .forgiven
              forgivenAt := some 5
              forgivenAmount := some 100 }) ∧
    (∃ e, forgive 5 9 (some 10) (some (mkTx .money_received 100 none)) =
      .error e) ∧
    (∃ e, forgive 5 1 (some 10) (some (mkTx .money_received 100 (some 100))) =
      .error e) := by
  refine ⟨?_, ?_, ?_⟩
  · have h := (forgive_guard 5 1 10 (mkTx .money_sent 100 none)).1 rfl (by decide)
    simpa using h
  · exact (forgive_guard 5 9 10 (mkTx .money_received 100 none)).2.1 (by decide)
  · exact (forgive_guard 5 1 10 (mkTx .money_received 100 (some 100))).2.2
      (by decide)

/-- C8 counterexample: after the lender forgives the 200/50 transaction,
the `remainingBalance` virtual reports 150, not 0 (it returns 0 only for
`repaid` transactions). -/
theorem forgive_remaining_balance_cex :
    (forgive 5 1 (some 10) (some (mkTx .money_received 200 (some 50)))).map
      remainingBalance ≠ .ok 0 := by
  intro h
  rw [show (forgive 5 1 (some 10)
      (some (mkTx .money_received 200 (some 50)))).map remainingBalance =
      .ok 150 from rfl] at h
  injection h with h
  omega

/-- C8 amended: forgiving the 200/50 transaction sets
`forgivenAmount = 150` and status `forgiven`, and the `remainingBalance`
virtual thereafter reports 150 (the virtual returns 0 only for `repaid`). -/
theorem forgive_scenario_200_50 :
    ∃ t', forgive 5 1 (some 10) (some (mkTx .money_received 200 (some 50))) =
        .ok t' ∧
      t'.forgivenAmount = some 150 ∧ t'.status = .forgiven ∧
      remainingBalance t' = 150 := by
  exact ⟨_, rfl, by decide, by decide, by decide⟩

/-- C5 counterexample: a task in status `completed` for the same
referenceTransaction does not block creation of a new task — the duplicate
query checks only `pending`, `accepted` and `in_progress`. -/
theorem createTask_completed_not_blocking_cex :
    (createTask 1 99 (mkBody false (some 20) none)
      (some (mkTx .money_received 100 none, fullReq)) true
      [mkTask .completed 20 false none]).isOk = true := by decide

/-- C5 amended: with every earlier guard satisfied, task creation succeeds
exactly when no existing task for the referenceTransaction is in status
`pending`, `accepted` or `in_progress`; a `completed` task (though
non-terminal) does not block creation. -/
theorem createTask_duplicate_guard (assignedById nextId : Nat)
    (body : CreateTaskBody) (transaction : MoneyTransaction)
    (request : MoneyRequestRec) (tasks : List Task) (mv : Int)
    (hto : body.assignedToId = some transaction.requestor)
    (htx : body.transactionId = some transaction.id)
    (htitle : body.hasTitle = true) (hdue : body.hasDueDate = true)
    (hemi : body.isEmiTask = false)
    (hmv : body.monetaryValue = some mv) (hmv1 : 0 < mv)
    (hmv2 : mv ≤ 10000)
    (hlender : transaction.lender = assignedById) :
    (createTask assignedById nextId body (some (transaction, request)) true
        tasks).isOk = true ↔
      ∀ task ∈ tasks, task.referenceTransaction = transaction.id →
        task.status ≠ .pending ∧ task.status ≠ .accepted ∧
          task.status ≠ .in_progress := by
  have hjs : jsMissing body.monetaryValue = false := by
    simp [jsMissing, hmv]
    omega
  have hvalid : taskMonetaryValueValid false body.monetaryValue = true := by
    simp [taskMonetaryValueValid, hmv]
    omega
  simp [createTask, hto, htx, htitle, hdue, hemi, hjs, hvalid, hlender,
    hasBlockingTask, Except.isOk, not_or]
  by_cases hb : ∃ x ∈ tasks, x.referenceTransaction = transaction.id ∧
      (x.status = TaskStatus.pending ∨ x.status = TaskStatus.accepted ∨
        x.status = TaskStatus.in_progress)
  · rw [if_pos hb]
    refine iff_of_false (by simp [Except.toBool]) ?_
    intro hr
    obtain ⟨x, hx, hid, hst⟩ := hb
    have h3 := hr x hx hid
    rcases hst with h | h | h
    · exact h3.1 h
    · exact h3.2.1 h
    · exact h3.2.2 h
  · rw [if_neg hb]
    refine iff_of_true (by rfl) ?_
    push_neg at hb
    intro x hx hid
    exact hb x hx hid

/-- Witness for the amended C5: creation goes through next to a completed
task and is blocked next to a pending one. -/
theorem createTask_duplicate_guard_witness :
    (createTask 1 99 (mkBody false (some 20) none)
        (some (mkTx .money_received 100 none, fullReq)) true
        [mkTask .completed 20 false none]).isOk = true ∧
    ¬ ((createTask 1 99 (mkBody false (some 20) none)
        (some (mkTx .money_received 100 none, fullReq)) true
        [mkTask .pending 20 false none]).isOk = true) := by
  constructor
  · exact (createTask_duplicate_guard 1 99 (mkBody false (some 20) none)
      (mkTx .money_received 100 none) fullReq [mkTask .completed 20 false none]
      20 rfl rfl rfl rfl rfl rfl (by decide) (by decide) rfl).mpr (by decide)
  · rw [createTask_duplicate_guard 1 99 (mkBody false (some 20) none)
      (mkTx .money_received 100 none) fullReq [mkTask .pending 20 false none]
      20 rfl rfl rfl rfl rfl rfl (by decide) (by decide) rfl]
    decide

/-- C6 counterexample: for a 50-unit loan the code's cap is 5 (every loan
of at most 500 gets the constant cap 5), while the claimed formula gives 1;
a schema-valid task (monetaryValue 0, allowed for EMI tasks) forgiving
2 EMIs of a 50-unit EMI loan is accepted, not rejected. -/
theorem maxEMIs_small_loan_cex :
    maxEMIsFor 50 = 5 ∧ maxEMIsSpecFormula 50 = 1 ∧
    (createTask 1 99 (mkBody true (some 0) (some 2))
      (some (mkTx .money_received 50 none, emiReq)) true []).isOk = true := by
  decide

/-- C6 amended: the cap is the constant 5 whenever loanAmount ≤ 500 (so 5
for 500 and also 5 — not 1 — for 50), and `min(floor(loanAmount/100), 24)`
floored at 1 for larger loans (12 for 1200); creation of an EMI task is
rejected exactly when forgivenEMIs exceeds this cap. -/
theorem createTask_emi_cap (assignedById nextId : Nat) (body : CreateTaskBody)
    (transaction : MoneyTransaction) (request : MoneyRequestRec) (n mv : Int)
    (hto : body.assignedToId = some transaction.requestor)
    (htx : body.transactionId = some transaction.id)
    (htitle : body.hasTitle = true) (hdue : body.hasDueDate = true)
    (hemi : body.isEmiTask = true)
    (hfe : body.emiForgivenEMIs = some n) (hn : 1 ≤ n)
    (hreq : request.paymentType = .emi)
    (hmv : body.monetaryValue = some mv) (hmv1 : 0 ≤ mv)
    (hmv2 : mv ≤ 10000)
    (hlender : transaction.lender = assignedById) :
    ((createTask assignedById nextId body (some (transaction, request)) true
        []).isOk = true ↔ n ≤ maxEMIsFor transaction.amount) ∧
    maxEMIsFor 500 = 5 ∧ maxEMIsFor 1200 = 12 ∧ maxEMIsFor 50 = 5 := by
  have hvalid : taskMonetaryValueValid true body.monetaryValue = true := by
    simp [taskMonetaryValueValid, hmv]
    omega
  refine ⟨?_, by decide, by decide, by decide⟩
  by_cases hcap : n > maxEMIsFor transaction.amount
  · simp [createTask, hto, htx, htitle, hdue, hemi, hfe, hreq, hlender,
      hcap, hvalid, Except.isOk, Except.toBool, apply_ite Except.toBool,
      show ¬ n < 1 by omega]
  · simp [createTask, hto, htx, htitle, hdue, hemi, hfe, hreq, hlender,
      hcap, hvalid, hasBlockingTask, Except.isOk, Except.toBool,
      apply_ite Except.toBool, show ¬ n < 1 by omega]
    omega

/-- Witness for the amended C6: 12 forgiven EMIs pass for a 1200 loan while
13 are rejected. -/
theorem createTask_emi_cap_witness :
    (createTask 1 99 (mkBody true (some 0) (some 12))
        (some (mkTx .money_received 1200 none, emiReq)) true []).isOk = true ∧
    ¬ ((createTask 1 99 (mkBody true (some 0) (some 13))
        (some (mkTx .money_received 1200 none, emiReq)) true []).isOk
          = true) := by
  constructor
  · exact (createTask_emi_cap 1 99 (mkBody true (some 0) (some 12))
      (mkTx .money_received 1200 none) emiReq 12 0
      rfl rfl rfl rfl rfl rfl (by decide) rfl rfl (by decide) (by decide)
      rfl).1.mpr (by decide)
  · rw [(createTask_emi_cap 1 99 (mkBody true (some 0) (some 13))
      (mkTx .money_received 1200 none) emiReq 13 0
      rfl rfl rfl rfl rfl rfl (by decide) rfl rfl (by decide) (by decide)
      rfl).1]
    decide

/-- C7: for an EMI transaction queried by its requestor, the payment-due
check reports "not required" when (a) a confirmed task's forgiveness window
contains the current month, else (b) another repaid transaction of the same
request covers the current month, else (c) the transaction is repaid —
in that order, first match winning; payment is demanded only when all
three fail. -/
theorem emiPaymentStatus_order (currentMonth userId : Nat)
    (transaction : MoneyTransaction) (request : MoneyRequestRec)
    (tasks : List Task) (transactions : List MoneyTransaction)
    (hu : transaction.requestor = userId)
    (hp : request.paymentType = .emi) :
    ((∃ task ∈ tasks,
        taskForgivesMonth transaction.id currentMonth task = true) →
      ∃ tid, emiPaymentStatus currentMonth userId
          (some (transaction, request)) tasks transactions =
        .ok (.forgivenByTask tid) ∧
        (EmiPayStatus.forgivenByTask tid).isPaymentRequired = false) ∧
    ((∀ task ∈ tasks,
        ¬ taskForgivesMonth transaction.id currentMonth task = true) →
      (∃ o ∈ transactions,
        coversCurrentMonthPayment transaction.id request.id currentMonth o
          = true) →
      emiPaymentStatus currentMonth userId (some (transaction, request))
          tasks transactions = .ok .alreadyPaidThisMonth ∧
        EmiPayStatus.alreadyPaidThisMonth.isPaymentRequired = false) ∧
    ((∀ task ∈ tasks,
        ¬ taskForgivesMonth transaction.id currentMonth task = true) →
      (∀ o ∈ transactions,
        ¬ coversCurrentMonthPayment transaction.id request.id currentMonth o
          = true) →
      transaction.status = .repaid →
      emiPaymentStatus currentMonth userId (some (transaction, request))
          tasks transactions = .ok .transactionCompleted ∧
        EmiPayStatus.transactionCompleted.isPaymentRequired = false) ∧
    ((∀ task ∈ tasks,
        ¬ taskForgivesMonth transaction.id currentMonth task = true) →
      (∀ o ∈ transactions,
        ¬ coversCurrentMonthPayment transaction.id request.id currentMonth o
          = true) →
      transaction.status ≠ .repaid →
      emiPaymentStatus currentMonth userId (some (transaction, request))
          tasks transactions = .ok .paymentRequired) := by
  refine ⟨fun hf => ?_, fun hf hc => ?_, fun hf hc hr => ?_, fun hf hc hr => ?_⟩
  · obtain ⟨ft, hft⟩ : ∃ ft,
        tasks.find? (taskForgivesMonth transaction.id currentMonth) = some ft := by
      rw [← Option.isSome_iff_exists, List.find?_isSome]
      exact hf
    exact ⟨ft.id, by simp [emiPaymentStatus, hu, hp, hft], rfl⟩
  · have hfn : tasks.find? (taskForgivesMonth transaction.id currentMonth)
        = none := List.find?_eq_none.mpr hf
    obtain ⟨p, hpn⟩ : ∃ p, transactions.find?
        (coversCurrentMonthPayment transaction.id request.id currentMonth)
          = some p := by
      rw [← Option.isSome_iff_exists, List.find?_isSome]
      exact hc
    exact ⟨by simp [emiPaymentStatus, hu, hp, hfn, hpn], rfl⟩
  · have hfn : tasks.find? (taskForgivesMonth transaction.id currentMonth)
        = none := List.find?_eq_none.mpr hf
    have hcn : transactions.find?
        (coversCurrentMonthPayment transaction.id request.id currentMonth)
          = none := List.find?_eq_none.mpr hc
    exact ⟨by simp [emiPaymentStatus, hu, hp, hfn, hcn, hr], rfl⟩
  · have hfn : tasks.find? (taskForgivesMonth transaction.id currentMonth)
        = none := List.find?_eq_none.mpr hf
    have hcn : transactions.find?
        (coversCurrentMonthPayment transaction.id request.id currentMonth)
          = none := List.find?_eq_none.mpr hc
    simp [emiPaymentStatus, hu, hp, hfn, hcn, hr]

/-- Witness for C7: a month inside a confirmed task's window is reported
not-required with an empty repayment collection; with no forgiving task a
covering repaid transaction answers; then a repaid status; then payment is
demanded. -/
theorem emiPaymentStatus_order_witness :
    (∃ tid, emiPaymentStatus 24289 2
        (some (mkTx .money_received 600 none, emiReq))
        [mkTask .confirmed 0 true (some ⟨2, 24288, 24289⟩)] [] =
      .ok (.forgivenByTask tid) ∧
      (EmiPayStatus.forgivenByTask tid).isPaymentRequired = false) ∧
    (emiPaymentStatus 24289 2 (some (mkTx .money_received 600 none, emiReq))
        [] [{ mkTx .repaid 50 (some 50) with
                id := 11, repaymentReceivedAt := some 24289 }] =
      .ok .alreadyPaidThisMonth) ∧
    (emiPaymentStatus 24289 2 (some (mkTx .repaid 600 (some 600), emiReq))
        [] [] = .ok .transactionCompleted) ∧
    (emiPaymentStatus 24289 2 (some (mkTx .money_received 600 none, emiReq))
        [] [] = .ok .paymentRequired) := by
  refine ⟨?_, ?_, ?_, ?_⟩
  · exact (emiPaymentStatus_order 24289 2 (mkTx .money_received 600 none)
      emiReq [mkTask .confirmed 0 true (some ⟨2, 24288, 24289⟩)] []
      rfl rfl).1 (by decide)
  · exact ((emiPaymentStatus_order 24289 2 (mkTx .money_received 600 none)
      emiReq [] [{ mkTx .repaid 50 (some 50) with
                     id := 11, repaymentReceivedAt := some 24289 }]
      rfl rfl).2.1 (by decide) (by decide)).1
  · exact ((emiPaymentStatus_order 24289 2 (mkTx .repaid 600 (some 600))
      emiReq [] [] rfl rfl).2.2.1 (by decide) (by decide) rfl).1
  · exact (emiPaymentStatus_order 24289 2 (mkTx .money_received 600 none)
      emiReq [] [] rfl rfl).2.2.2 (by decide) (by decide) (by decide)

/-- C10 counterexample: when the referenced transaction fails to resolve,
task confirmation still succeeds with the task saved as `confirmed` and no
transaction update at all — the two writes are not atomic. -/
theorem confirmTask_nonatomic_cex :
    (confirmTask 5 1 (some (mkTask .completed 20 false none)) none).map
      (fun r => (r.1.status, r.2.isSome)) =
      .ok (TaskStatus.confirmed, false) := rfl

/-- C10 amended: the task's confirmation is persisted before the
transaction is re-read; when the transaction lookup fails the handler still
succeeds with a confirmed task and an untouched ledger, and only when the
lookup resolves is the credit of `applyTaskCredit` applied — the two
mutations are sequential, not atomic. -/
theorem confirmTask_not_atomic (now userId : Nat) (task : Task)
    (transaction : MoneyTransaction) (reqOpt : Option MoneyRequestRec)
    (hby : task.assignedBy = userId) (hst : task.status = .completed) :
    (∃ task', confirmTask now userId (some task) none = .ok (task', none) ∧
      task'.status = .confirmed) ∧
    (∃ task', confirmTask now userId (some task)
        (some (transaction, reqOpt)) =
        .ok (task', some (applyTaskCredit now task transaction reqOpt)) ∧
      task'.status = .confirmed) := by
  constructor <;> simp [confirmTask, hby, hst]

/-- Witness for the amended C10: concrete confirmations with and without a
resolving transaction. -/
theorem confirmTask_not_atomic_witness :
    (∃ task', confirmTask 5 1 (some (mkTask .completed 20 false none)) none =
        .ok (task', none) ∧ task'.status = .confirmed) ∧
    (∃ task', confirmTask 5 1 (some (mkTask .completed 20 false none))
        (some (mkTx .money_received 100 none, some fullReq)) =
        .ok (task', some (applyTaskCredit 5 (mkTask .completed 20 false none)
          (mkTx .money_received 100 none) (some fullReq))) ∧
      task'.status = .confirmed) :=
  confirmTask_not_atomic 5 1 (mkTask .completed 20 false none)
    (mkTx .money_received 100 none) (some fullReq) rfl rfl

/-- Characterization of the transaction update on confirming an EMI task
with proper EMI details: entries appended, counter bumped, the forgiven
amount credited, `repaid` exactly on covering the amount (the
`repaymentReceivedAt` advance is abstracted by `rra`). -/
theorem applyTaskCredit_emi_eq (now : Nat) (task : Task)
    (transaction : MoneyTransaction) (request : MoneyRequestRec)
    (ef : TaskEmiForgiveness) (det : EmiDetails) (a : Int)
    (hemi : task.isEmiTask = true) (hef : task.emiForgiveness = some ef)
    (hn : 1 ≤ ef.forgivenEMIs) (hed : request.emiDetails = some det)
    (hia : det.installmentAmount = some a) (hapos : 0 < a) :
    ∃ rra : Option Nat,
      applyTaskCredit now task transaction (some request) =
        if orZero transaction.repaymentAmount +
            a * (ef.forgivenEMIs : Int) ≥ transaction.amount then
          { transaction with
              emiForgivenEMIs := transaction.emiForgivenEMIs ++
                (List.range ef.forgivenEMIs).map fun i =>
                  EmiEntry.mk (ef.startMonth + i) a now task.id
              totalForgivenEMIs :=
                transaction.totalForgivenEMIs + ef.forgivenEMIs
              repaymentAmount := some (orZero transaction.repaymentAmount +
                a * (ef.forgivenEMIs : Int))
              repaymentReceivedAt := some now
              status := .repaid }
        else
          { transaction with
              emiForgivenEMIs := transaction.emiForgivenEMIs ++
                (List.range ef.forgivenEMIs).map fun i =>
                  EmiEntry.mk (ef.startMonth + i) a now task.id
              totalForgivenEMIs :=
                transaction.totalForgivenEMIs + ef.forgivenEMIs
              repaymentAmount := some (orZero transaction.repaymentAmount +
                a * (ef.forgivenEMIs : Int))
              repaymentReceivedAt := rra } := by
  have hn0 : ¬ ef.forgivenEMIs = 0 := by omega
  have hpos : (0 : Int) < a * (ef.forgivenEMIs : Int) :=
    mul_pos hapos (by exact_mod_cast hn)
  have hne : ((List.range ef.forgivenEMIs).map fun i => ef.startMonth + i)
      ≠ [] := by
    simp [List.map_eq_nil_iff, List.range_eq_nil, hn0]
  rcases hgl : ((List.range ef.forgivenEMIs).map
      fun i => ef.startMonth + i).getLast? with _ | last
  · exact absurd (List.getLast?_eq_none_iff.mp hgl) hne
  · refine ⟨some (endOfLastForgivenPeriodMonth det.frequency last), ?_⟩
    simp [applyTaskCredit, Task.calculateEMIForgivenessMonths, hef, hed,
      hemi, hia, hn0, hgl, hpos, orZero, List.map_map, Function.comp_def]

/-- Characterization of the transaction update on confirming a non-EMI
task: `monetaryValue` is credited and the status becomes `repaid` exactly
on covering `amount`. -/
theorem applyTaskCredit_nonEmi_eq (now : Nat) (task : Task)
    (transaction : MoneyTransaction) (reqOpt : Option MoneyRequestRec)
    (hemi : task.isEmiTask = false) :
    ∃ rra : Option Nat,
      applyTaskCredit now task transaction reqOpt =
        if orZero transaction.repaymentAmount + task.monetaryValue ≥
            transaction.amount then
          { transaction with
              repaymentAmount := some (orZero transaction.repaymentAmount +
                task.monetaryValue)
              repaymentReceivedAt := some now
              status := .repaid }
        else
          { transaction with
              repaymentAmount := some (orZero transaction.repaymentAmount +
                task.monetaryValue)
              repaymentReceivedAt := rra } := by
  refine ⟨if (reqOpt.map fun r => r.paymentType) = some PaymentType.emi ∧
      transaction.repaymentReceivedAt = none then some now
    else transaction.repaymentReceivedAt, ?_⟩
  cases hefo : task.emiForgiveness <;>
    cases hedo : reqOpt.bind (fun r => r.emiDetails) <;>
      · simp only [applyTaskCredit, hemi, hefo, hedo, Bool.false_eq_true,
          false_and, if_false]
        by_cases hq : (reqOpt.map fun r => r.paymentType) =
            some PaymentType.emi ∧ transaction.repaymentReceivedAt = none
        · rw [if_pos hq, if_pos hq]
        · rw [if_neg hq, if_neg hq]

/-- C2: confirming a completed task by its assigner credits the reference
transaction: for an EMI task with proper EMI details, `repaymentAmount`
grows by installmentAmount × forgivenEMIs, one forgiveness entry per month
`startMonth + i` is appended, `totalForgivenEMIs` grows by forgivenEMIs,
and the status becomes `repaid` exactly when the new repaymentAmount
reaches `amount`; for a non-EMI task, `monetaryValue` is credited with the
same repaid-transition rule. -/
theorem confirmTask_credit (now userId : Nat) (task : Task)
    (transaction : MoneyTransaction) (request : MoneyRequestRec)
    (ef : TaskEmiForgiveness) (det : EmiDetails) (a : Int)
    (hby : task.assignedBy = userId) (hst : task.status = .completed)
    (htx : transaction.status = .money_received) :
    (task.isEmiTask = true → task.emiForgiveness = some ef →
      1 ≤ ef.forgivenEMIs → request.emiDetails = some det →
      det.installmentAmount = some a → 0 < a →
      ∃ task' tx', confirmTask now userId (some task)
          (some (transaction, some request)) = .ok (task', some tx') ∧
        orZero tx'.repaymentAmount =
          orZero transaction.repaymentAmount + a * (ef.forgivenEMIs : Int) ∧
        tx'.emiForgivenEMIs = transaction.emiForgivenEMIs ++
          (List.range ef.forgivenEMIs).map (fun i =>
            EmiEntry.mk (ef.startMonth + i) a now task.id) ∧
        tx'.totalForgivenEMIs =
          transaction.totalForgivenEMIs + ef.forgivenEMIs ∧
        (tx'.status = .repaid ↔
          orZero transaction.repaymentAmount + a * (ef.forgivenEMIs : Int) ≥
            transaction.amount)) ∧
    (task.isEmiTask = false →
      ∃ task' tx', confirmTask now userId (some task)
          (some (transaction, some request)) = .ok (task', some tx') ∧
        orZero tx'.repaymentAmount =
          orZero transaction.repaymentAmount + task.monetaryValue ∧
        (tx'.status = .repaid ↔
          orZero transaction.repaymentAmount + task.monetaryValue ≥
            transaction.amount)) := by
  constructor
  · intro hemi hef hn hed hia hapos
    obtain ⟨rra, hA⟩ := applyTaskCredit_emi_eq now task transaction request
      ef det a hemi hef hn hed hia hapos
    by_cases hrep : orZero transaction.repaymentAmount +
        a * (ef.forgivenEMIs : Int) ≥ transaction.amount
    · refine ⟨{ task with
                  status := .confirmed
                  confirmedAt := some now
                  amountRepaid := task.monetaryValue },
        applyTaskCredit now task transaction (some request),
        by simp [confirmTask, hby, hst], ?_, ?_, ?_, ?_⟩
      · rw [hA, if_pos hrep]
        rfl
      · rw [hA, if_pos hrep]
      · rw [hA, if_pos hrep]
      · rw [hA, if_pos hrep]
        exact iff_of_true rfl hrep
    · refine ⟨{ task with
                  status := .confirmed
                  confirmedAt := some now
                  amountRepaid := task.monetaryValue },
        applyTaskCredit now task transaction (some request),
        by simp [confirmTask, hby, hst], ?_, ?_, ?_, ?_⟩
      · rw [hA, if_neg hrep]
        rfl
      · rw [hA, if_neg hrep]
      · rw [hA, if_neg hrep]
      · rw [hA, if_neg hrep]
        exact iff_of_false (by simp [htx]) hrep
  · intro hemi
    obtain ⟨rra, hA⟩ :=
      applyTaskCredit_nonEmi_eq now task transaction (some request) hemi
    by_cases hrep : orZero transaction.repaymentAmount +
        task.monetaryValue ≥ transaction.amount
    · refine ⟨{ task with
                  status := .confirmed
                  confirmedAt := some now
                  amountRepaid := task.monetaryValue },
        applyTaskCredit now task transaction (some request),
        by simp [confirmTask, hby, hst], ?_, ?_⟩
      · rw [hA, if_pos hrep]
        rfl
      · rw [hA, if_pos hrep]
        exact iff_of_true rfl hrep
    · refine ⟨{ task with
                  status := .confirmed
                  confirmedAt := some now
                  amountRepaid := task.monetaryValue },
        applyTaskCredit now task transaction (some request),
        by simp [confirmTask, hby, hst], ?_, ?_⟩
      · rw [hA, if_neg hrep]
        rfl
      · rw [hA, if_neg hrep]
        exact iff_of_false (by simp [htx]) hrep

/-- Witness for C2: forgiving 2 EMIs of 50 on a 600-unit loan with 100
already repaid credits 200 (not repaid); a non-EMI task worth 20 on a
100-unit loan with 90 repaid reaches 110 and repays it. -/
theorem confirmTask_credit_witness :
    (∃ task' tx', confirmTask 7 1
        (some (mkTask .completed 0 true (some ⟨2, 24288, 24289⟩)))
        (some (mkTx .money_received 600 (some 100), some emiReq)) =
        .ok (task', some tx') ∧
      orZero tx'.repaymentAmount = 200 ∧
      tx'.emiForgivenEMIs =
        [EmiEntry.mk 24288 50 7 30, EmiEntry.mk 24289 50 7 30] ∧
      tx'.totalForgivenEMIs = 2 ∧
      (tx'.status = .repaid ↔ (200 : Int) ≥ 600)) ∧
    (∃ task' tx', confirmTask 7 1 (some (mkTask .completed 20 false none))
        (some (mkTx .money_received 100 (some 90), some emiReq)) =
        .ok (task', some tx') ∧
      orZero tx'.repaymentAmount = 110 ∧
      (tx'.status = .repaid ↔ (110 : Int) ≥ 100)) := by
  constructor
  · obtain ⟨task', tx', h1, h2, h3, h4, h5⟩ :=
      (confirmTask_credit 7 1 (mkTask .completed 0 true (some ⟨2, 24288, 24289⟩))
        (mkTx .money_received 600 (some 100)) emiReq ⟨2, 24288, 24289⟩
        { numberOfInstallments := 12, installmentAmount := some 50,
          frequency := .monthly } 50 rfl rfl rfl).1
        rfl rfl (by decide) rfl rfl (by decide)
    exact ⟨task', tx', h1, h2.trans (by decide), h3.trans (by decide),
      h4.trans (by decide), h5.trans (by decide)⟩
  · obtain ⟨task', tx', h1, h2, h3⟩ :=
      (confirmTask_credit 7 1 (mkTask .completed 20 false none)
        (mkTx .money_received 100 (some 90)) emiReq ⟨2, 24288, 24289⟩
        { numberOfInstallments := 12, installmentAmount := some 50,
          frequency := .monthly } 50 rfl rfl rfl).2 rfl
    exact ⟨task', tx', h1, h2.trans (by decide), h3.trans (by decide)⟩

end Good4It
